import Mathlib

/-!
# Verification of the UK-crime data-wrangling pipeline

Shallow embedding of `wrangle_data.py` (fetch → clean → filter → chart
building).  DataFrames become lists of records, pandas column operations
become list operations, and the fallible steps (HTTP fetch, CSV parse,
filter-mode dispatch, integer casts) become `Option`/`Except`/sum results.
Floating-point means are modelled exactly over `ℚ` (IEEE rounding is
abstracted away); the ascending sorts of pandas and its sorted group-by keys are
modelled with `List.insertionSort` over the lexicographic string order.
-/

namespace Wrangle

/-! ### Character-list string primitives

The built-in `String` traversals (`splitOn`, `toLower`, `trim`, the
lexicographic order) are implemented over byte positions by well-founded
recursion and do not reduce inside the kernel, so the embedding carries its
own structurally recursive versions over `String.data : List Char`.  Each
mirrors the corresponding Python/pandas string operation. -/

/-- `l₂` starts with `l₁`. -/
def isPrefixCL : List Char → List Char → Bool
  | [], _ => true
  | _ :: _, [] => false
  | a :: as, b :: bs => a == b && isPrefixCL as bs

/-- `pat` occurs somewhere in the list (Python `pat in s`). -/
def containsCL (pat : List Char) : List Char → Bool
  | [] => isPrefixCL pat []
  | c :: rest => isPrefixCL pat (c :: rest) || containsCL pat rest

/-- Python `pat in s` on strings. -/
def containsSub (s pat : String) : Bool :=
  containsCL pat.data s.data

/-- Python `s.lower()` (ASCII case folding, which covers every string the
pipeline inspects). -/
def lowerStr (s : String) : String :=
  String.mk (s.data.map Char.toLower)

/-- Lexicographic `≤` on character lists, by code point — the order pandas
uses for sorted group-by keys and sorted pivot labels. -/
def lexLeCL : List Char → List Char → Bool
  | [], _ => true
  | _ :: _, [] => false
  | a :: as, b :: bs =>
    if a.toNat < b.toNat then true
    else if b.toNat < a.toNat then false
    else lexLeCL as bs

/-- Lexicographic `≤` on strings. -/
def strLe (a b : String) : Bool :=
  lexLeCL a.data b.data

/-- Split a character list at every occurrence of `sep` (the behaviour of
`str.split` / `String.splitOn` for a one-character separator). -/
def splitCL (sep : Char) : List Char → List (List Char)
  | [] => [[]]
  | c :: rest =>
    let r := splitCL sep rest
    if c == sep then [] :: r
    else
      match r with
      | [] => [[c]]
      | f :: fs => (c :: f) :: fs

/-- The whitespace characters Python strips (the ASCII ones suffice for
the fields this pipeline sees). -/
def isPySpace (c : Char) : Bool :=
  c == ' ' || c == '\t' || c == '\n' || c == '\r'

/-- Python `s.strip()` on a character list. -/
def trimCL (l : List Char) : List Char :=
  ((l.dropWhile isPySpace).reverse.dropWhile isPySpace).reverse

/-- One raw CSV row, restricted to the columns the pipeline reads after the
column-dropping steps of `clean_data` (`Time`, `Geography`, `Gender`,
`Ethnicity`, `Age_Group`, `Number of arrests`, the rate column).  All fields
arrive as text. -/
structure Row where
  time : String
  geography : String
  gender : String
  ethnicity : String
  age_Group : String
  /-- the raw `Number of arrests` text -/
  arrestsRaw : String
  /-- the raw `Rate per 1,000 population by ethnicity, gender, and PFA` text -/
  rate : String
  deriving Repr, DecidableEq

/-- One cleaned row, after `clean_data`. -/
structure CleanedRow where
  time : String
  geography : String
  gender : String
  ethnicity : String
  age_Group : String
  /-- `Number of arrests` after normalisation (`-1` sentinel when missing) -/
  number_of_arrests : Int
  /-- the `Missing_Number_of_Arrests` flag column (0 or 1, as in the code) -/
  missing_Number_of_Arrests : Nat
  /-- the rate column, still text after cleaning -/
  rate : String
  deriving Repr, DecidableEq

/-- `df[Number of arrests].str.replace("[^0-9]", "")`: keep only the digit
characters of the raw count field.  The subsequent `.str.strip()` in the
source is a no-op on an all-digit string, so it is absorbed here. -/
def stripNonDigits (s : String) : String :=
  String.mk (s.data.filter Char.isDigit)

/-- `Missing_Number_of_Arrests`: 1 exactly when the digit-stripped count
field is the empty string. -/
def missingFlag (s : String) : Nat :=
  if stripNonDigits s = "" then 1 else 0

/-- Value of an all-digit character list. -/
def digitsVal (l : List Char) : Nat :=
  l.foldl (fun acc c => acc * 10 + (c.toNat - '0'.toNat)) 0

/-- Value of an all-digit decimal string (the effect of `astype(int)` on the
digit-stripped field). -/
def parseDigits (s : String) : Nat :=
  digitsVal s.data

/-- `df[Number of arrests].replace(empty, -1)` followed by `astype(int)`. -/
def normArrests (s : String) : Int :=
  let d := stripNonDigits s
  if d = "" then -1 else (parseDigits d : Int)

/-- The ethnicity regrouping lambda applied by `clean_data` to the
`Ethnicity` column (membership tests are case-sensitive; the `mixed`
substring test is on `x.lower()`). -/
def regroupEthnicity (x : String) : String :=
  if x ∈ ["Asian", "Indian", "Pakistani", "Bangladeshi", "Any other asian"] then "Asian"
  else if x ∈ ["Black Caribbean", "Black African", "Any other black background", "Black"] then "Black"
  else if x ∈ ["White Irish", "White British", "White", "Any other white background"] then "White"
  else if x ∈ ["Chinese", "Other", "Any other ethnic group"] then "Other"
  else if containsSub (lowerStr x) "mixed" then "Mixed"
  else x

/-- The per-row effect of `clean_data` on a raw row that survives the
column drops. -/
def cleanRow (r : Row) : CleanedRow :=
  { time := r.time
    geography := r.geography
    gender := r.gender
    ethnicity := regroupEthnicity r.ethnicity
    age_Group := r.age_Group
    number_of_arrests := normArrests r.arrestsRaw
    missing_Number_of_Arrests := missingFlag r.arrestsRaw
    rate := r.rate }

/-- `df.sort_values(by=Time, ascending=True)` on the raw table, then the
per-row cleaning steps.  (Column-name stripping and the column drops are
absorbed into the `Row` representation; no row is dropped.) -/
def clean_data (raw : List Row) : List CleanedRow :=
  (raw.insertionSort (fun a b => strLe a.time b.time = true)).map cleanRow

/-- Row predicate of the `how == "all"` branch of `filter_df`. -/
def allPred (r : CleanedRow) : Bool :=
  r.geography == "All" && r.gender == "All" && r.ethnicity == "All" &&
    r.age_Group == "All" && r.missing_Number_of_Arrests == 0

/-- Row predicate of the `how == "not all"` branch of `filter_df`. -/
def notAllPred (r : CleanedRow) : Bool :=
  r.ethnicity != "All" && r.gender != "All" && r.age_Group != "All" &&
    r.geography != "All" && r.missing_Number_of_Arrests == 0

/-- Error message of the `else` branch of `filter_df` (the source text
additionally quotes the two accepted values). -/
def filterErrMsg : String :=
  "Parameter value not recognised. Value must be all or not all."

/-- `filter_df(how)`.  The source recomputes the cleaned table internally by
calling `clean_data()`; here the cleaned table is an explicit argument so
the branching on `how` can be studied on its own.  The `else` branch raises
`Exception`, modelled as `Except.error`. -/
def filter_df (df : List CleanedRow) (how : String) : Except String (List CleanedRow) :=
  if how = "all" then .ok (df.filter allPred)
  else if how = "not all" then .ok (df.filter notAllPred)
  else .error filterErrMsg

/-! ## Fetcher (`fetch_data`) -/

/-- A parsed CSV table: header row as column names, then data rows. -/
structure DataFrame where
  columns : List String
  rows : List (List String)
  deriving Repr, DecidableEq

/-- The outcome of the HTTP GET and UTF-8 decode that `fetch_data` performs
(`requests.get` may raise; `r.content.decode(utf-8)` may raise; otherwise
a decoded text body is available). -/
inductive FetchOutcome where
  /-- `requests.get` raised (network failure), with the exception text -/
  | getFails (cause : String)
  /-- `.decode(utf-8)` raised (non-UTF-8 body) -/
  | decodeFails
  /-- decoded text body -/
  | body (content : String)
  deriving Repr, DecidableEq

/-- What `fetch_data` can return in the source: a DataFrame, the
no-content message string, or Python `None` (the implicit return of the
`except` branch, which prints the exception and falls off the end). -/
inductive FetchResult where
  | table (d : DataFrame)
  | message (s : String)
  | pnone
  deriving Repr, DecidableEq

/-- `pd.read_csv(io.StringIO(content))`, restricted to the behaviour the
pipeline relies on: blank lines are skipped, the first remaining line is
the header, fields are comma-separated (quoting is not modelled), an empty
input raises `EmptyDataError` and a data row with more fields than the
header raises `ParserError`; both are modelled as `Except.error`. -/
def read_csv (content : String) : Except String DataFrame :=
  match ((splitCL '\n' content.data).map String.mk).filter (fun l => l ≠ "") with
  | [] => .error "EmptyDataError: No columns to parse from file"
  | header :: rest =>
    let cols := (splitCL ',' header.data).map String.mk
    let dataRows := rest.map (fun l => (splitCL ',' l.data).map String.mk)
    if dataRows.all (fun r => r.length ≤ cols.length) then .ok ⟨cols, dataRows⟩
    else .error "ParserError: Error tokenizing data"

/-- `fetch_data`.  The whole body sits in a `try`, whose `except` branch
prints two diagnostics and returns `None`; the `content == None` check can
never fire (a successful `.decode` is a string), so `FetchResult.message`
is unreachable.  The `file_name` parameter of the source is unused and the
function performs exactly one GET (no retry), which is why a single
`FetchOutcome` is consumed. -/
def fetch_data (o : FetchOutcome) : FetchResult :=
  match o with
  | .getFails _ => .pnone
  | .decodeFails => .pnone
  | .body content =>
    match read_csv content with
    | .error _ => .pnone
    | .ok d => .table d

/-- The fetch attempts on which the pipeline fails to produce a table:
network failure, non-UTF-8 body, or a body `read_csv` rejects (empty body,
malformed CSV). -/
def fetchFails (o : FetchOutcome) : Prop :=
  match o with
  | .getFails _ => True
  | .decodeFails => True
  | .body content => ∃ e, read_csv content = .error e

/-- Modelled from the spec (section 4.1): the fetch contract of the spec,
`fetch(url) -> tabular_data | FetchError`, in which every failure
condition is surfaced as a `FetchError` carrying the underlying cause.
This definition follows the wording of the spec, to be compared with
`fetch_data`, which is translated from the source. -/
def fetchSpec (o : FetchOutcome) : Except String DataFrame :=
  match o with
  | .getFails cause => .error cause
  | .decodeFails => .error "UnicodeDecodeError"
  | .body content => read_csv content

/-! ## Chart builder (`plot_data`)

pandas pivot tables become explicit cell functions: for a chosen column
dimension, the cell at `(time, key)` aggregates (`aggfunc=sum`) the rate
values of the matching rows — integer addition where the source has cast
the column with `astype(int)`, string concatenation where the column is
still text — and is NaN when no row matches.  Row and column labels of a
pivot are the sorted distinct values, as pandas produces them. -/

/-- One pivot cell: NaN, an integer, or a string value. -/
inductive PyCell where
  | na
  | int (n : Int)
  | str (s : String)
  deriving Repr, DecidableEq

/-- One plotly `go.Scatter` line trace, restricted to the fields the source
sets that carry data (name, x, y, line color). -/
structure Scatter where
  name : String
  x : List String
  y : List PyCell
  color : String
  deriving Repr, DecidableEq

/-- One chart descriptor `dict(data=..., layout=...)`; of the layout only
the title distinguishes the figures. -/
structure Figure where
  data : List Scatter
  layoutTitle : String
  deriving Repr, DecidableEq

/-- Sorted distinct values, as pandas uses for pivot labels and sorted
group-by keys. -/
def uniqueSorted (l : List String) : List String :=
  l.dedup.insertionSort (fun a b => strLe a b = true)

/-- `int(s)` on a text field (`astype(int)` elementwise): optional sign
then decimal digits, surrounding whitespace tolerated; anything else
raises, modelled as `none`. -/
def parseIntPy (s : String) : Option Int :=
  match trimCL s.data with
  | [] => none
  | '-' :: ds =>
    if ds ≠ [] && ds.all Char.isDigit then some (-(digitsVal ds : Int)) else none
  | '+' :: ds =>
    if ds ≠ [] && ds.all Char.isDigit then some ((digitsVal ds : Int)) else none
  | ds =>
    if ds.all Char.isDigit then some ((digitsVal ds : Int)) else none

/-- `astype(int)` on the rate column of a selection succeeds for every row.
When this fails in the source the exception aborts `plot_data` entirely. -/
def allRatesParse (rows : List CleanedRow) : Bool :=
  rows.all (fun r => (parseIntPy r.rate).isSome)

/-- Integer value of a rate field (only used under an `allRatesParse`
guard, so the default is never taken on the paths `plot_data` keeps). -/
def rateInt (r : CleanedRow) : Int :=
  (parseIntPy r.rate).getD 0

/-- Integer pivot cell: sum of the integer-cast rates of the rows matching
`(time, key)` under the column dimension `f`; NaN when none match. -/
def intCell (rows : List CleanedRow) (f : CleanedRow → String) (t k : String) : PyCell :=
  match (rows.filter (fun r => r.time == t && f r == k)).map rateInt with
  | [] => .na
  | vs => .int vs.sum

/-- String pivot cell: `aggfunc=sum` on an object column concatenates the
matching strings (at the grain of the table each cell has at most one row, so
this is the rate text of that row); NaN when none match. -/
def strCell (rows : List CleanedRow) (f : CleanedRow → String) (t k : String) : PyCell :=
  match (rows.filter (fun r => r.time == t && f r == k)).map (fun r => r.rate) with
  | [] => .na
  | vs => .str (String.join vs)

/-- Selection behind `df_gender_pivot`. -/
def genderRows (df : List CleanedRow) : List CleanedRow :=
  df.filter (fun r => r.missing_Number_of_Arrests == 0 && r.ethnicity == "All" &&
    r.geography == "All" && r.age_Group == "All" && r.gender != "All")

/-- Selection behind the by-ethnicity `df_ethnic_pivot` (the second `loc`
drops `Unreported`). -/
def ethnicRows (df : List CleanedRow) : List CleanedRow :=
  (df.filter (fun r => r.missing_Number_of_Arrests == 0 && r.ethnicity != "All" &&
    r.age_Group == "All" && r.geography == "All" && r.gender == "All")).filter
    (fun r => r.ethnicity != "Unreported")

/-- Column labels of the by-ethnicity pivot. -/
def ethnicCols (df : List CleanedRow) : List String :=
  uniqueSorted ((ethnicRows df).map (fun r => r.ethnicity))

/-- The 5-color palette reused by the by-ethnicity chart and every
per-force breakdown. -/
def palette5 : List String :=
  ["aquamarine", "yellow", "skyblue", "tomato", "magenta"]

/-- The 10-color palette of the top-10-forces chart. -/
def palette10 : List String :=
  ["aquamarine", "yellow", "skyblue", "tomato", "magenta", "blue", "chartreuse", "cyan",
    "navajowhite", "hotpink"]

/-- The by-gender chart (`plot_one` / `layout_one`): the pivot keeps the
rate as text (`aggfunc=sum` concatenation) and exactly the `Female` and
`Male` columns are read, in that order. -/
def figOne (df : List CleanedRow) : Figure :=
  let rows := genderRows df
  let times := uniqueSorted (rows.map (fun r => r.time))
  { data := [
      { name := "Female", x := times,
        y := times.map (fun t => strCell rows (fun r => r.gender) t "Female"),
        color := "aquamarine" },
      { name := "Male", x := times,
        y := times.map (fun t => strCell rows (fun r => r.gender) t "Male"),
        color := "yellow" }]
    layoutTitle := "Rate of Arrests Arrests by Gender per Year" }

/-- The by-ethnicity chart (`plot_two` / `layout_two`): one trace per
`(column, color)` pair of `zip(df_ethnic_pivot.columns, colors)`. -/
def figTwo (df : List CleanedRow) : Figure :=
  let rows := ethnicRows df
  let times := uniqueSorted (rows.map (fun r => r.time))
  { data := ((ethnicCols df).zip palette5).map (fun p =>
      { name := p.1, x := times,
        y := times.map (fun t => intCell rows (fun r => r.ethnicity) t p.1),
        color := p.2 })
    layoutTitle := "Rate of Arrests by Ethnicity per Year" }

/-- Selection behind `df_forces` (ranking rows): the boolean mask
`~df[rate].str.contains("N/A")` is index-aligned with the subset, so
it filters the subset by its own rate text. -/
def forcesRows (df : List CleanedRow) : List CleanedRow :=
  (df.filter (fun r => r.missing_Number_of_Arrests == 0 && r.ethnicity == "All" &&
    r.age_Group == "All" && r.gender == "All" && r.geography != "All")).filter
    (fun r => !(containsSub r.rate "N/A"))

/-- Sorted group-by keys of `df_forces.groupby([Geography])`. -/
def geoNames (df : List CleanedRow) : List String :=
  uniqueSorted ((forcesRows df).map (fun r => r.geography))

/-- Mean integer-cast rate of one geography over the ranking rows
(`groupby(...).mean()`), exact over `ℚ`. -/
def meanRate (df : List CleanedRow) (g : String) : ℚ :=
  let vs := ((forcesRows df).filter (fun r => r.geography == g)).map rateInt
  mkRat vs.sum vs.length

/-- `df_forces_arrest_rates.index.tolist()`: the geography names sorted by
descending mean rate (`sort_values(ascending=False)`). -/
def ranking (df : List CleanedRow) : List String :=
  (geoNames df).insertionSort (fun a b => meanRate df b ≤ meanRate df a)

/-- `top10_forces = ...[:10]`. -/
def top10_forces (df : List CleanedRow) : List String :=
  (ranking df).take 10

/-- `bottom10_forces = ...[-10:]` (computed but unused downstream). -/
def bottom10_forces (df : List CleanedRow) : List String :=
  (ranking df).drop ((ranking df).length - 10)

/-- `top5_forces = ...[:6]` — a 6-element slice despite the name. -/
def top5_forces (df : List CleanedRow) : List String :=
  (ranking df).take 6

/-- `bottom5_forces = ...[-6:]` — a 6-element slice despite the name. -/
def bottom5_forces (df : List CleanedRow) : List String :=
  (ranking df).drop ((ranking df).length - 6)

/-- Selection behind `df_top10_forces` (note: no `N/A` filter and no
integer cast here — the pivot keeps the rate as text). -/
def top10Rows (df : List CleanedRow) : List CleanedRow :=
  df.filter (fun r => r.missing_Number_of_Arrests == 0 && r.ethnicity == "All" &&
    r.age_Group == "All" && r.gender == "All" && (top10_forces df).contains r.geography)

/-- Cell of `df_top10_forces_pivot` before the hardcoded patch. -/
def top10CellRaw (df : List CleanedRow) (t g : String) : PyCell :=
  strCell (top10Rows df) (fun r => r.geography) t g

/-- Cell of `df_top10_forces_pivot` after
`.at["2017/18", "Lancashire"] = 14`. -/
def top10Cell (df : List CleanedRow) (t g : String) : PyCell :=
  if t == "2017/18" && g == "Lancashire" then .int 14 else top10CellRaw df t g

/-- Index of the patched pivot: `.at` enlarges the frame, appending the
`2017/18` row label when it is not already present. -/
def top10Times (df : List CleanedRow) : List String :=
  let ts := uniqueSorted ((top10Rows df).map (fun r => r.time))
  if ts.contains "2017/18" then ts else ts ++ ["2017/18"]

/-- Columns of the patched pivot: `.at` appends the `Lancashire` column
label when it is not already present. -/
def top10Cols (df : List CleanedRow) : List String :=
  let cs := uniqueSorted ((top10Rows df).map (fun r => r.geography))
  if cs.contains "Lancashire" then cs else cs ++ ["Lancashire"]

/-- The top-10-forces chart (`plot_three` / `layout_three`): one trace per
`(column, color)` pair of `zip(df_top10_forces_pivot.columns, colors)`. -/
def figThree (df : List CleanedRow) : Figure :=
  { data := ((top10Cols df).zip palette10).map (fun p =>
      { name := p.1, x := top10Times df,
        y := (top10Times df).map (fun t => top10Cell df t p.1),
        color := p.2 })
    layoutTitle := "Police Forces with Highest Rates of Arrest" }

/-- Selection behind the per-force breakdown `df_ethnic_pivot` (second
use of that variable name in the source). -/
def breakdownRows (df : List CleanedRow) : List CleanedRow :=
  (df.filter (fun r => r.missing_Number_of_Arrests == 0 && r.ethnicity != "All" &&
    r.age_Group == "All" && (top5_forces df ++ bottom5_forces df).contains r.geography &&
    r.gender == "All")).filter (fun r => r.ethnicity != "Unreported")

/-- Sorted group-by keys of `df_ethnic_pivot.groupby(Geography)`, which
is also the insertion order of `forces_dict`. -/
def breakdownGroups (df : List CleanedRow) : List String :=
  uniqueSorted ((breakdownRows df).map (fun r => r.geography))

/-- The traces of one per-force breakdown group: pivot the rows of the group by
`Time` × `Ethnicity`, then one trace per `(column, color)` pair of
`zip(tmp.columns, colors)`. -/
def forceScatters (df : List CleanedRow) (name : String) : List Scatter :=
  let rows := (breakdownRows df).filter (fun r => r.geography == name)
  let times := uniqueSorted (rows.map (fun r => r.time))
  let cols := uniqueSorted (rows.map (fun r => r.ethnicity))
  (cols.zip palette5).map (fun p =>
    { name := p.1, x := times,
      y := times.map (fun t => intCell rows (fun r => r.ethnicity) t p.1),
      color := p.2 })

/-- One per-force breakdown descriptor (`forces_dict[name]` paired with
`forces_layout_dict[name]`, whose title is the force name). -/
def mkForceFigure (df : List CleanedRow) (name : String) : Figure :=
  { data := forceScatters df name, layoutTitle := name }

/-- The two appending loops at the end of `plot_data`: walk
`forces_dict.items()` (group-by order) once keeping the figures whose
geography is in `top5_forces`, then again keeping those in
`bottom5_forces`. -/
def tailFigs (df : List CleanedRow) : List Figure :=
  ((breakdownGroups df).filterMap (fun n =>
      if (top5_forces df).contains n then some (mkForceFigure df n) else none)) ++
  ((breakdownGroups df).filterMap (fun n =>
      if (bottom5_forces df).contains n then some (mkForceFigure df n) else none))

/-- `plot_data` on a cleaned table.  (The source recomputes the cleaned
table via `clean_data()` and also computes `filter_df()` views it never
uses.)  The result is `none` on the paths where the source raises and
produces no figure list: a missing `Female`/`Male` pivot column (the
`.Female`/`.Male` attribute accesses) or a failing `astype(int)` on one of
the three integer-cast selections. -/
def plot_data (df : List CleanedRow) : Option (List Figure) :=
  if (uniqueSorted ((genderRows df).map (fun r => r.gender))).contains "Female" &&
      (uniqueSorted ((genderRows df).map (fun r => r.gender))).contains "Male" &&
      allRatesParse (ethnicRows df) && allRatesParse (forcesRows df) &&
      allRatesParse (breakdownRows df) then
    some ([figOne df, figTwo df, figThree df] ++ tailFigs df)
  else
    none

/-- A minimal cleaned table used as concrete witness input: one `Female`
and one `Male` aggregate row, no force rows. -/
def wdfGender : List CleanedRow :=
  [⟨"2018", "All", "Female", "All", "All", 100, 0, "5"⟩,
    ⟨"2018", "All", "Male", "All", "All", 120, 0, "7"⟩]

/-- A cleaned table of three force-level aggregate rows used as concrete
witness input; none of its rows is at time `2017/18`. -/
def wdfForces : List CleanedRow :=
  [⟨"2016/17", "Kent", "All", "All", "All", 100, 0, "20"⟩,
    ⟨"2016/17", "Lancashire", "All", "All", "All", 90, 0, "14"⟩,
    ⟨"2016/17", "Essex", "All", "All", "All", 80, 0, "10"⟩]

/-- A raw table whose cleaned form has six distinct ethnicity categories
outside {All, Unreported} (the five buckets plus a pass-through value). -/
def rawSixEthnicities : List Row :=
  [⟨"2018", "All", "All", "Asian", "All", "10", "3"⟩,
    ⟨"2018", "All", "All", "Black", "All", "10", "4"⟩,
    ⟨"2018", "All", "All", "White", "All", "10", "5"⟩,
    ⟨"2018", "All", "All", "Other", "All", "10", "6"⟩,
    ⟨"2018", "All", "All", "Any other mixed background", "All", "10", "7"⟩,
    ⟨"2018", "All", "All", "Gypsy or Irish Traveller", "All", "10", "8"⟩]

/-! ## Helper lemmas -/

/-- Walking a list and keeping `f n` whenever `p n` holds is filtering then
mapping. -/
lemma filterMap_ite {α β : Type} (p : α → Bool) (f : α → β) (l : List α) :
    l.filterMap (fun n => if p n then some (f n) else none) =
      (l.filter p).map f := by
  induction l with
  | nil => rfl
  | cons a l ih =>
    by_cases h : p a <;> simp [List.filterMap_cons, List.filter_cons, h, ih]

/-- `zip` truncates at the shorter list: the first components are an
initial segment of the first list. -/
lemma map_fst_zip_eq_take {α β : Type} (l₁ : List α) (l₂ : List β) :
    (l₁.zip l₂).map Prod.fst = l₁.take l₂.length := by
  induction l₁ generalizing l₂ with
  | nil => simp
  | cons a l ih =>
    cases l₂ with
    | nil => simp
    | cons b m => simp [ih]

/-- `zip` truncates at the shorter list: the second components are an
initial segment of the second list. -/
lemma map_snd_zip_eq_take {α β : Type} (l₁ : List α) (l₂ : List β) :
    (l₁.zip l₂).map Prod.snd = l₂.take l₁.length := by
  induction l₁ generalizing l₂ with
  | nil => simp
  | cons a l ih =>
    cases l₂ with
    | nil => simp
    | cons b m => simp [ih]

/-- The missing flag is raised exactly when the normalised count is the
`-1` sentinel (an all-digit parse is never negative). -/
lemma missingFlag_one_iff (s : String) : missingFlag s = 1 ↔ normArrests s = -1 := by
  unfold missingFlag normArrests
  by_cases hd : stripNonDigits s = "" <;> simp [hd]

/-- The regrouping lambda either lands in one of the five bucket labels or
passes its argument through unchanged. -/
lemma regroupEthnicity_mem_or_eq (x : String) :
    regroupEthnicity x ∈ (["Asian", "Black", "White", "Other", "Mixed"] : List String) ∨
      regroupEthnicity x = x := by
  unfold regroupEthnicity
  repeat' split
  all_goals first | exact Or.inl (by decide) | exact Or.inr rfl

/-! ## The claims -/

/-- Claim C2: for every row produced by the cleaning step, the normalised
arrest count is an integer (`Int`-valued here by construction); the missing
flag is set iff that count equals the sentinel `-1`; the flag is set
exactly when stripping every non-digit character from the raw count field
leaves the empty string, and otherwise the count is the parsed integer of
the stripped digits. -/
theorem clean_arrest_normalisation (raw : List Row) (cr : CleanedRow)
    (h : cr ∈ clean_data raw) :
    (cr.missing_Number_of_Arrests = 1 ↔ cr.number_of_arrests = -1) ∧
    ∃ r ∈ raw, cr = cleanRow r ∧
      (cr.missing_Number_of_Arrests = 1 ↔ stripNonDigits r.arrestsRaw = "") ∧
      (stripNonDigits r.arrestsRaw ≠ "" →
        cr.number_of_arrests = (parseDigits (stripNonDigits r.arrestsRaw) : Int)) := by
  unfold clean_data at h
  obtain ⟨r, hr, hcr⟩ := List.mem_map.mp h
  rw [List.mem_insertionSort] at hr
  subst hcr
  refine ⟨missingFlag_one_iff r.arrestsRaw, r, hr, rfl, ?_, ?_⟩
  · unfold cleanRow missingFlag
    by_cases hd : stripNonDigits r.arrestsRaw = "" <;> simp [hd]
  · intro hd
    unfold cleanRow normArrests
    simp [hd]

/-- Claim C2 witness: a concrete raw row with count text `"1,234"`. -/
theorem clean_arrest_normalisation_witness :
    cleanRow ⟨"2018", "All", "All", "All", "All", "1,234", "5"⟩ ∈
        clean_data [⟨"2018", "All", "All", "All", "All", "1,234", "5"⟩] ∧
    ((cleanRow ⟨"2018", "All", "All", "All", "All", "1,234", "5"⟩).missing_Number_of_Arrests = 1 ↔
      (cleanRow ⟨"2018", "All", "All", "All", "All", "1,234", "5"⟩).number_of_arrests = -1) :=
  ⟨by decide,
    (clean_arrest_normalisation [⟨"2018", "All", "All", "All", "All", "1,234", "5"⟩]
      (cleanRow ⟨"2018", "All", "All", "All", "All", "1,234", "5"⟩) (by decide)).1⟩

/-- Claim C3: the regrouping mapping fixes every value of the closed output
set {Asian, Black, White, Other, Mixed, All, Unreported}, and applying it
twice to any string equals applying it once. -/
theorem regroupEthnicity_idempotent :
    ((["Asian", "Black", "White", "Other", "Mixed", "All", "Unreported"] : List String).all
        (fun v => regroupEthnicity v == v)) = true ∧
    ∀ x : String, regroupEthnicity (regroupEthnicity x) = regroupEthnicity x := by
  refine ⟨by decide, fun x => ?_⟩
  rcases regroupEthnicity_mem_or_eq x with h | h
  · simp only [List.mem_cons, List.not_mem_nil, or_false] at h
    rcases h with h | h | h | h | h <;> rw [h] <;> decide
  · rw [h]
    exact h

/-- Claim C4: `filter_df` with any mode other than the two recognised ones
fails with the invalid-argument error (the `raise Exception` branch). -/
theorem filter_df_invalid_mode (df : List CleanedRow) (how : String)
    (h1 : how ≠ "all") (h2 : how ≠ "not all") :
    filter_df df how = .error filterErrMsg := by
  unfold filter_df
  rw [if_neg h1, if_neg h2]

/-- Claim C4 witness: mode `"bogus"` on a concrete table. -/
theorem filter_df_invalid_mode_witness :
    "bogus" ≠ "all" ∧ "bogus" ≠ "not all" ∧
      filter_df [] "bogus" = .error filterErrMsg :=
  ⟨by decide, by decide, filter_df_invalid_mode [] "bogus" (by decide) (by decide)⟩

/-- Claim C9 counterexample: with the underscore spelling of the claim,
`filter_df` raises instead of returning a row set, so there is no row set
to compare — already on the empty table. -/
theorem filter_df_underscore_returns_no_rows :
    ¬ ∃ v : List CleanedRow, filter_df [] "not_all" = .ok v := by
  rintro ⟨v, hv⟩
  rw [show filter_df [] "not_all" = .error filterErrMsg from rfl] at hv
  cases hv

/-- Claim C9 (amended to the recognised spelling `"not all"`): the row sets
returned by the two recognised modes are disjoint, and neither contains a
row whose missing flag is set. -/
theorem filter_views_disjoint (df va vb : List CleanedRow) (r : CleanedRow)
    (ha : filter_df df "all" = .ok va) (hb : filter_df df "not all" = .ok vb) :
    (r ∈ va → r ∉ vb) ∧ (r ∈ va → r.missing_Number_of_Arrests = 0) ∧
      (r ∈ vb → r.missing_Number_of_Arrests = 0) := by
  have hva : va = df.filter allPred := by
    have : filter_df df "all" = .ok (df.filter allPred) := rfl
    rw [this] at ha
    exact (Except.ok.inj ha).symm
  have hvb : vb = df.filter notAllPred := by
    have : filter_df df "not all" = .ok (df.filter notAllPred) := rfl
    rw [this] at hb
    exact (Except.ok.inj hb).symm
  subst hva hvb
  refine ⟨fun hra hrb => ?_, fun hra => ?_, fun hrb => ?_⟩
  · have h1 := (List.mem_filter.mp hra).2
    have h2 := (List.mem_filter.mp hrb).2
    simp only [allPred, Bool.and_eq_true, beq_iff_eq] at h1
    simp only [notAllPred, Bool.and_eq_true, bne_iff_ne, ne_eq] at h2
    exact h2.1.2 h1.1.1.1.1
  · have h1 := (List.mem_filter.mp hra).2
    simp only [allPred, Bool.and_eq_true, beq_iff_eq] at h1
    exact h1.2
  · have h2 := (List.mem_filter.mp hrb).2
    simp only [notAllPred, Bool.and_eq_true, bne_iff_ne, beq_iff_eq] at h2
    exact h2.2

/-- Claim C9 witness: a two-row table, one aggregate row and one
disaggregated row. -/
theorem filter_views_disjoint_witness :
    filter_df [⟨"2018", "All", "All", "All", "All", 5, 0, "5"⟩,
        ⟨"2018", "Kent", "Male", "Asian", "18-20", 7, 0, "7"⟩] "all" =
      .ok [⟨"2018", "All", "All", "All", "All", 5, 0, "5"⟩] ∧
    filter_df [⟨"2018", "All", "All", "All", "All", 5, 0, "5"⟩,
        ⟨"2018", "Kent", "Male", "Asian", "18-20", 7, 0, "7"⟩] "not all" =
      .ok [⟨"2018", "Kent", "Male", "Asian", "18-20", 7, 0, "7"⟩] ∧
    ((⟨"2018", "All", "All", "All", "All", 5, 0, "5"⟩ : CleanedRow) ∈
        [(⟨"2018", "All", "All", "All", "All", 5, 0, "5"⟩ : CleanedRow)] →
      (⟨"2018", "All", "All", "All", "All", 5, 0, "5"⟩ : CleanedRow) ∉
        [(⟨"2018", "Kent", "Male", "Asian", "18-20", 7, 0, "7"⟩ : CleanedRow)]) :=
  ⟨by rfl, by rfl,
    (filter_views_disjoint
      [⟨"2018", "All", "All", "All", "All", 5, 0, "5"⟩,
        ⟨"2018", "Kent", "Male", "Asian", "18-20", 7, 0, "7"⟩]
      [⟨"2018", "All", "All", "All", "All", 5, 0, "5"⟩]
      [⟨"2018", "Kent", "Male", "Asian", "18-20", 7, 0, "7"⟩]
      ⟨"2018", "All", "All", "All", "All", 5, 0, "5"⟩ (by rfl) (by rfl)).1⟩

/-- Claim C10: the recognised mode strings are exactly `"all"` and
`"not all"`; in particular the underscore spelling `"not_all"` falls into
the invalid-mode branch and raises, for every input table. -/
theorem filter_df_recognised_modes :
    (∀ (df : List CleanedRow) (how : String),
        (filter_df df how).isOk = (how == "all" || how == "not all")) ∧
    ∀ df : List CleanedRow, filter_df df "not_all" = .error filterErrMsg := by
  constructor
  · intro df how
    by_cases h1 : how = "all"
    · subst h1
      rfl
    · by_cases h2 : how = "not all"
      · subst h2
        rfl
      · unfold filter_df
        rw [if_neg h1, if_neg h2]
        have e1 : (how == "all") = false := by simp [h1]
        have e2 : (how == "not all") = false := by simp [h2]
        rw [e1, e2]
        rfl
  · intro df
    rfl

/-- Claim C5 counterexample: on a network failure `fetch_data` prints two
diagnostics and returns Python `None` — no error value carrying the cause
is surfaced to the caller, while the contract modelled from the spec
(`fetchSpec`) returns an error carrying the cause. -/
theorem fetch_data_swallows_network_error :
    fetch_data (.getFails "ConnectionError") = FetchResult.pnone ∧
    fetchSpec (.getFails "ConnectionError") = .error "ConnectionError" :=
  ⟨rfl, rfl⟩

/-- Claim C5 (amended): for every failing fetch — network failure,
non-UTF-8 body, empty body, or malformed CSV — `fetch_data` catches the
exception and returns `None` (surfacing no error value), performs no retry
(it consumes a single GET outcome), and on success returns the CSV parsed
into a table with the header row as column names. -/
theorem fetch_data_failure_and_success (o : FetchOutcome) :
    (fetchFails o → fetch_data o = .pnone) ∧
    (∀ content cols dataRows, o = .body content →
      read_csv content = .ok ⟨cols, dataRows⟩ →
      fetch_data o = .table ⟨cols, dataRows⟩ ∧
      ∃ header rest,
        ((splitCL '\n' content.data).map String.mk).filter (fun l => l ≠ "") =
          header :: rest ∧
        cols = (splitCL ',' header.data).map String.mk) := by
  constructor
  · intro hf
    cases o with
    | getFails c => rfl
    | decodeFails => rfl
    | body content =>
      obtain ⟨e, he⟩ := hf
      simp [fetch_data, he]
  · rintro content cols dataRows rfl hr
    refine ⟨by simp [fetch_data, hr], ?_⟩
    unfold read_csv at hr
    cases hlines : ((splitCL '\n' content.data).map String.mk).filter (fun l => l ≠ "") with
    | nil =>
      rw [hlines] at hr
      cases hr
    | cons header rest =>
      rw [hlines] at hr
      dsimp only at hr
      split at hr
      · refine ⟨header, rest, rfl, ?_⟩
        have := Except.ok.inj hr
        exact (congrArg DataFrame.columns this).symm
      · cases hr

/-- Claim C5 witness: a network failure and a well-formed two-line CSV
body. -/
theorem fetch_data_failure_and_success_witness :
    fetch_data (FetchOutcome.getFails "ConnectionError") = FetchResult.pnone ∧
    fetch_data (FetchOutcome.body "Time,Geography\n2018,Kent") =
      FetchResult.table ⟨["Time", "Geography"], [["2018", "Kent"]]⟩ :=
  ⟨(fetch_data_failure_and_success (FetchOutcome.getFails "ConnectionError")).1 trivial,
   ((fetch_data_failure_and_success (FetchOutcome.body "Time,Geography\n2018,Kent")).2
      "Time,Geography\n2018,Kent" ["Time", "Geography"] [["2018", "Kent"]] rfl (by rfl)).1⟩

/-- Claim C1: a successful `plot_data` run returns the by-gender,
by-ethnicity and top-10-forces descriptors first, in that order, followed
by the per-force breakdowns for forces in the top-5 list and then those in
the bottom-5 list; the total count is 3 plus the number of group-by
geographies in the top-5 list plus the number in the bottom-5 list. -/
theorem plot_data_output_contract (df : List CleanedRow) (figs : List Figure)
    (h : plot_data df = some figs) :
    figs.take 3 = [figOne df, figTwo df, figThree df] ∧
    figs.drop 3 =
      ((breakdownGroups df).filter (fun n => (top5_forces df).contains n)).map
          (mkForceFigure df) ++
        ((breakdownGroups df).filter (fun n => (bottom5_forces df).contains n)).map
          (mkForceFigure df) ∧
    figs.length = 3 +
      ((breakdownGroups df).filter (fun n => (top5_forces df).contains n)).length +
      ((breakdownGroups df).filter (fun n => (bottom5_forces df).contains n)).length := by
  unfold plot_data at h
  split at h
  · obtain rfl := (Option.some.inj h).symm
    have ht : tailFigs df =
        ((breakdownGroups df).filter (fun n => (top5_forces df).contains n)).map
            (mkForceFigure df) ++
          ((breakdownGroups df).filter (fun n => (bottom5_forces df).contains n)).map
            (mkForceFigure df) := by
      unfold tailFigs
      rw [filterMap_ite, filterMap_ite]
    refine ⟨rfl, ht, ?_⟩
    have hlen : ([figOne df, figTwo df, figThree df] ++ tailFigs df).length =
        3 + (tailFigs df).length := by
      simp
      omega
    rw [hlen, ht]
    simp only [List.length_append, List.length_map]
    omega
  · cases h

/-- Claim C1 witness: a minimal cleaned table with one `Female` and one
`Male` aggregate row (the force selections are empty, so the breakdown
lists are empty and the output is exactly the three fixed charts). -/
theorem plot_data_output_contract_witness :
    plot_data wdfGender =
      some ([figOne wdfGender, figTwo wdfGender, figThree wdfGender] ++ tailFigs wdfGender) ∧
    ([figOne wdfGender, figTwo wdfGender, figThree wdfGender] ++ tailFigs wdfGender).length =
      3 +
        ((breakdownGroups wdfGender).filter
            (fun n => (top5_forces wdfGender).contains n)).length +
        ((breakdownGroups wdfGender).filter
            (fun n => (bottom5_forces wdfGender).contains n)).length :=
  ⟨by rfl,
   (plot_data_output_contract wdfGender
      ([figOne wdfGender, figTwo wdfGender, figThree wdfGender] ++ tailFigs wdfGender)
      (by rfl)).2.2⟩

/-- Claim C6: the top-10-forces chart ranks geographies by descending mean
integer rate over the selected ranking rows and takes the first 10 names by
position; the patched pivot holds the hardcoded value 14 at
(`2017/18`, `Lancashire`), agrees with the unpatched pivot at every other
cell, and — when the input has no selected observation for that force and
year, as the source comment records for the real dataset — the unpatched
cell there is missing. -/
theorem top10_chart_ranking_and_patch (df : List CleanedRow)
    (h : ∀ r ∈ top10Rows df, ¬(r.time = "2017/18" ∧ r.geography = "Lancashire")) :
    top10_forces df = (ranking df).take 10 ∧
    List.Sorted (fun a b => meanRate df b ≤ meanRate df a) (ranking df) ∧
    (ranking df).Perm (geoNames df) ∧
    top10Cell df "2017/18" "Lancashire" = PyCell.int 14 ∧
    top10CellRaw df "2017/18" "Lancashire" = PyCell.na ∧
    (∀ t g, ¬(t = "2017/18" ∧ g = "Lancashire") → top10Cell df t g = top10CellRaw df t g) := by
  refine ⟨rfl, ?_, List.perm_insertionSort _ _, rfl, ?_, ?_⟩
  · haveI : IsTotal String (fun a b => meanRate df b ≤ meanRate df a) :=
      ⟨fun a b => le_total _ _⟩
    haveI : IsTrans String (fun a b => meanRate df b ≤ meanRate df a) :=
      ⟨fun a b c hab hbc => le_trans hbc hab⟩
    exact List.sorted_insertionSort _ _
  · unfold top10CellRaw strCell
    have hnil : ((top10Rows df).filter
        (fun r => r.time == "2017/18" && r.geography == "Lancashire")).map
          (fun r => r.rate) = [] := by
      rw [List.map_eq_nil_iff, List.filter_eq_nil_iff]
      intro r hr
      simp only [Bool.and_eq_true, beq_iff_eq, not_and]
      intro h1 h2
      exact h r hr ⟨h1, h2⟩
    rw [hnil]
  · intro t g htg
    have hcond : ¬((t == "2017/18" && g == "Lancashire") = true) := by
      simp only [Bool.and_eq_true, beq_iff_eq]
      exact htg
    unfold top10Cell
    rw [if_neg hcond]

/-- Claim C6 witness: three force rows at time `2016/17` only, so the
`2017/18` Lancashire observation is genuinely absent. -/
theorem top10_chart_ranking_and_patch_witness :
    (∀ r ∈ top10Rows wdfForces, ¬(r.time = "2017/18" ∧ r.geography = "Lancashire")) ∧
    (top10_forces wdfForces = (ranking wdfForces).take 10 ∧
      List.Sorted (fun a b => meanRate wdfForces b ≤ meanRate wdfForces a) (ranking wdfForces) ∧
      (ranking wdfForces).Perm (geoNames wdfForces) ∧
      top10Cell wdfForces "2017/18" "Lancashire" = PyCell.int 14 ∧
      top10CellRaw wdfForces "2017/18" "Lancashire" = PyCell.na ∧
      (∀ t g, ¬(t = "2017/18" ∧ g = "Lancashire") →
        top10Cell wdfForces t g = top10CellRaw wdfForces t g)) :=
  ⟨by decide, top10_chart_ranking_and_patch wdfForces (by decide)⟩

/-- Claim C7: the breakdown recomputes its top-5 list as the first 6 and
its bottom-5 list as the last 6 names of the descending mean-rate ranking,
and the produced breakdown descriptors are the top-5 ones and then the
bottom-5 ones, each sublist in group-by iteration order (the order of
`breakdownGroups`), not rank order. -/
theorem breakdown_slices_and_partition (df : List CleanedRow) :
    top5_forces df = (ranking df).take 6 ∧
    bottom5_forces df = (ranking df).drop ((ranking df).length - 6) ∧
    tailFigs df =
      ((breakdownGroups df).filter (fun n => (top5_forces df).contains n)).map
          (mkForceFigure df) ++
        ((breakdownGroups df).filter (fun n => (bottom5_forces df).contains n)).map
          (mkForceFigure df) := by
  refine ⟨rfl, rfl, ?_⟩
  unfold tailFigs
  rw [filterMap_ite, filterMap_ite]

/-- Claim C8 counterexample: a cleaned table with six ethnicity pivot
columns produces only five series — the sixth column yields none, so the
colors are not cycled and not every pivot column yields a series. -/
theorem figTwo_six_columns_five_series :
    (ethnicCols (clean_data rawSixEthnicities)).length = 6 ∧
    ((figTwo (clean_data rawSixEthnicities)).data).length = 5 :=
  ⟨by rfl, by rfl⟩

/-- Claim C8 (amended): the by-ethnicity chart produces one series per
pivot column only up to the palette size — `zip` truncates, so the series
names are the first five pivot columns and the colors are the first
`min(columns, 5)` palette entries, with no wrapping beyond the palette. -/
theorem figTwo_series_per_column (df : List CleanedRow) :
    ((figTwo df).data).length = min (ethnicCols df).length 5 ∧
    ((figTwo df).data).map (fun s => s.name) = (ethnicCols df).take 5 ∧
    ((figTwo df).data).map (fun s => s.color) = palette5.take (ethnicCols df).length := by
  have hdata : (figTwo df).data = ((ethnicCols df).zip palette5).map (fun p =>
      ({ name := p.1,
         x := uniqueSorted ((ethnicRows df).map (fun r => r.time)),
         y := (uniqueSorted ((ethnicRows df).map (fun r => r.time))).map
            (fun t => intCell (ethnicRows df) (fun r => r.ethnicity) t p.1),
         color := p.2 } : Scatter)) := rfl
  refine ⟨?_, ?_, ?_⟩
  · rw [hdata, List.length_map, List.length_zip]
    rfl
  · rw [hdata, List.map_map]
    exact map_fst_zip_eq_take (ethnicCols df) palette5
  · rw [hdata, List.map_map]
    exact map_snd_zip_eq_take (ethnicCols df) palette5

end Wrangle
